import Mathlib

/-!
# Verification of the Safe-Storage store engine

Shallow embedding of the core of the Safe-Storage repository
(`src/core/store.ts` and `src/core/serializer.ts`) and proofs about it.

Modelling conventions, chosen once and used throughout:

* JavaScript values in the serializer's vocabulary are modelled by `JSVal`
  (JSON primitives, arrays, objects, `Date`, `Map`, `Set`, `undefined`).
  JSON numbers are modelled as integers (no floating point is needed by any
  property under study); a `Date` is modelled by its canonical ISO string,
  which is exactly the data `toISOString`/`new Date` round-trip through.
* A JSON *text* is modelled up to the standard bijection between canonical
  texts and parse trees: `JText := Option JTree`, where `some t` stands for
  a syntactically valid text with parse tree `t` and `none` stands for a
  syntactically invalid text (on which `JSON.parse` throws).  Object field
  lists represent post-parse objects, so keys are insertion-ordered and
  duplicate-free.
* A JavaScript exception is modelled as `Except.error` carrying the message;
  `try`/`catch` becomes a `match` on the `Except`.  State mutated before a
  throw survives it, so every operation returns its result together with the
  backend and the list of observable events.
* `console.warn`/`console.error` calls and invocations of the configured
  `onValidationError` callback and of subscriber callbacks are recorded as
  events (`Ev`).  The `onValidationError` callback itself is modelled as a
  non-throwing observer; subscriber callbacks are modelled as genuinely
  fallible functions, since `notifyCallbacks` handles their exceptions.
* `localStorage`/`sessionStorage` is a total string-keyed map
  `Backend R := String → Option R`; quota failures of `setItem` are not
  modelled (no claim under study depends on them).  `getItem` returning an
  empty string (falsy in JS) is identified with absence.
* JS truthiness of optional numbers (`!version`, `!ttl`, `!expiresAt`,
  `storedData.version && …`) is modelled explicitly: absent or zero is falsy.
* The store is modelled exactly as generically as the source: the value type,
  and the serializer pair (`ser`/`deser`, including the unchecked
  `as StoredData<T>` cast) are parameters, instantiated further below with
  the default serializer.  `set` is modelled as `_setInternal` (the default,
  with neither `debounce` nor `throttle` configured; those wrappers are
  timer-based and outside every claim under study).
* `Date.now()` is passed in as the parameter `now`; the two `Date.now()`
  calls inside `_setInternal` happen in the same tick and are both `now`.
-/

namespace SafeStorage

/-! ## JSON parse trees and JavaScript values -/

/-- Pure JSON parse tree: what `JSON.stringify` emits and `JSON.parse`
(without a reviver) produces. -/
inductive JTree where
  | tnull
  | tbool (b : Bool)
  | tnum (n : Int)
  | tstr (s : String)
  | tarr (ts : List JTree)
  | tobj (fs : List (String × JTree))

/-- JavaScript values in the default serializer's vocabulary
(`src/core/serializer.ts`): JSON primitives, arrays, plain objects,
`Date` (by its ISO string), `Map`, `Set`, and `undefined`. -/
inductive JSVal where
  | jnull
  | jbool (b : Bool)
  | jnum (n : Int)
  | jstr (s : String)
  | jarr (xs : List JSVal)
  | jobj (fs : List (String × JSVal))
  | jdate (iso : String)
  | jmap (es : List (JSVal × JSVal))
  | jset (xs : List JSVal)
  | jundef

/-- Syntactically valid or invalid JSON text, up to the canonical
text ↔ parse-tree bijection: `some t` is a valid text parsing to `t`,
`none` is invalid text (`JSON.parse` throws on it). -/
abbrev JText := Option JTree

/-! ## The default serializer: `JSON.stringify` with `replacer`
(`src/core/serializer.ts` lines 7–42).

`serialize` wraps the value as `{ __root: data }`, so every value in the
tree — including the top-level one — reaches the replacer as a *property*
(with a truthy key), where `this[key]` yields the original value before
`toJSON`.  The replacer maps `Date`/`Map`/`Set`/`undefined` to tagged
objects and recursion continues into the tag's `value` payload with the
original (pre-`toJSON`) children, which `enc` reproduces structurally. -/

mutual

def enc : JSVal → JTree
  | .jnull => .tnull
  | .jbool b => .tbool b
  | .jnum n => .tnum n
  | .jstr s => .tstr s
  | .jarr xs => .tarr (encList xs)
  | .jobj fs => .tobj (encFields fs)
  | .jdate iso => .tobj [("__type", .tstr "Date"), ("value", .tstr iso)]
  | .jmap es => .tobj [("__type", .tstr "Map"), ("value", .tarr (encEntries es))]
  | .jset xs => .tobj [("__type", .tstr "Set"), ("value", .tarr (encList xs))]
  | .jundef => .tobj [("__type", .tstr "undefined")]

def encList : List JSVal → List JTree
  | [] => []
  | x :: xs => enc x :: encList xs

def encFields : List (String × JSVal) → List (String × JTree)
  | [] => []
  | (k, v) :: fs => (k, enc v) :: encFields fs

def encEntries : List (JSVal × JSVal) → List JTree
  | [] => []
  | (k, v) :: es => .tarr [enc k, enc v] :: encEntries es

end

/-- `serialize(data)` — wrap in the `__root` envelope and stringify with the
replacer (`src/core/serializer.ts` lines 77–83).  Always a valid text. -/
def serialize (v : JSVal) : JText :=
  some (.tobj [("__root", enc v)])

/-- Test used by the reviver-deletion step: a property whose revived value
is `undefined` is deleted from its holder by `JSON.parse`. -/
def isUndef : JSVal → Bool
  | .jundef => true
  | _ => false

/-- First-match field lookup on a (duplicate-free) object field list,
modelling JS property access `fs[key]`. -/
def lookupF : List (String × JSVal) → String → Option JSVal
  | [], _ => none
  | (k, v) :: fs, key => if k = key then some v else lookupF fs key

/-- One entry consumed by the `Map` constructor: entries shorter than two
elements pad with `undefined`; a non-array entry makes `new Map` throw. -/
def entryOf : JSVal → Except String (JSVal × JSVal)
  | .jarr [] => .ok (.jundef, .jundef)
  | .jarr [k] => .ok (k, .jundef)
  | .jarr (k :: v :: _) => .ok (k, v)
  | _ => .error "TypeError: iterator value is not an entry object"

def entriesOf : List JSVal → Except String (List (JSVal × JSVal))
  | [] => .ok []
  | e :: es =>
    match entryOf e, entriesOf es with
    | .ok p, .ok ps => .ok (p :: ps)
    | .error m, _ => .error m
    | _, .error m => .error m

/-- Reviver action on an already-internalized object (`serializer.ts`
lines 47–71): recognize the `__type` tag and rebuild the native value;
an unknown or absent tag returns the object unchanged.  Constructor
behaviour on malformed payloads follows JS: `new Date(non-string)` on a
missing payload gives an invalid date, `new Map`/`new Set` accept
`undefined`/`null` as empty, `new Set(string)` iterates characters, and
non-iterable payloads throw. -/
def reviveTag (fs : List (String × JSVal)) : Except String JSVal :=
  match lookupF fs "__type" with
  | some (.jstr "Date") =>
    match lookupF fs "value" with
    | some (.jstr s) => .ok (.jdate s)
    | _ => .ok (.jdate "Invalid Date")
  | some (.jstr "Map") =>
    match lookupF fs "value" with
    | some (.jarr es) =>
      match entriesOf es with
      | .ok ps => .ok (.jmap ps)
      | .error m => .error m
    | none => .ok (.jmap [])
    | some .jnull => .ok (.jmap [])
    | _ => .error "TypeError: value is not iterable"
  | some (.jstr "Set") =>
    match lookupF fs "value" with
    | some (.jarr xs) => .ok (.jset xs)
    | none => .ok (.jset [])
    | some .jnull => .ok (.jset [])
    | some (.jstr s) => .ok (.jset (s.toList.map (fun c => .jstr c.toString)))
    | _ => .error "TypeError: value is not iterable"
  | some (.jstr "undefined") => .ok .jundef
  | some _ => .ok (.jobj fs)
  | none => .ok (.jobj fs)

mutual

/-- `JSON.parse` with the reviver (`serializer.ts` lines 47–71), bottom-up:
children are internalized first; object properties whose revived value is
`undefined` are deleted by `InternalizeJSONProperty`; deleted array elements
read back as `undefined`. -/
def dec : JTree → Except String JSVal
  | .tnull => .ok .jnull
  | .tbool b => .ok (.jbool b)
  | .tnum n => .ok (.jnum n)
  | .tstr s => .ok (.jstr s)
  | .tarr ts =>
    match decList ts with
    | .ok xs => .ok (.jarr xs)
    | .error m => .error m
  | .tobj fs =>
    match decFields fs with
    | .ok gs => reviveTag (gs.filter (fun p => !isUndef p.2))
    | .error m => .error m

def decList : List JTree → Except String (List JSVal)
  | [] => .ok []
  | t :: ts =>
    match dec t, decList ts with
    | .ok x, .ok xs => .ok (x :: xs)
    | .error m, _ => .error m
    | _, .error m => .error m

def decFields : List (String × JTree) → Except String (List (String × JSVal))
  | [] => .ok []
  | (k, t) :: fs =>
    match dec t, decFields fs with
    | .ok v, .ok gs => .ok ((k, v) :: gs)
    | .error m, _ => .error m
    | _, .error m => .error m

end

/-- Unwrapping of the `__root` envelope (`serializer.ts` lines 88–92):
`parsed && typeof parsed === 'object' && '__root' in parsed`. -/
def unwrapRoot : JSVal → JSVal
  | .jobj fs =>
    match lookupF fs "__root" with
    | some r => r
    | none => .jobj fs
  | v => v

/-- `deserialize(data)` (`serializer.ts` lines 85–95): parse with the
reviver and unwrap; any exception is caught and re-thrown as
`Failed to deserialize data`. -/
def deserialize (txt : JText) : Except String JSVal :=
  match txt with
  | none => .error "Failed to deserialize data"
  | some t =>
    match dec t with
    | .error _ => .error "Failed to deserialize data"
    | .ok parsed => .ok (unwrapRoot parsed)

/-! Well-formedness predicate on values for which the round-trip is exact.
`goodV` admits `undefined` (lossless inside arrays, `Map` entries and `Set`
elements); `goodF` additionally forbids `undefined` as a direct object
property value (the reviver deletes such properties) and the reserved
`__type` key (a plain object carrying it is re-interpreted by the reviver).
`good` is the top-level predicate; a bare top-level `undefined` is lost to
the same property deletion applied to the `__root` envelope. -/

mutual

def goodV : JSVal → Bool
  | .jnull => true
  | .jbool _ => true
  | .jnum _ => true
  | .jstr _ => true
  | .jarr xs => goodL xs
  | .jobj fs => goodF fs
  | .jdate _ => true
  | .jmap es => goodE es
  | .jset xs => goodL xs
  | .jundef => true

def goodL : List JSVal → Bool
  | [] => true
  | x :: xs => goodV x && goodL xs

def goodF : List (String × JSVal) → Bool
  | [] => true
  | (k, v) :: fs => decide (k ≠ "__type") && !isUndef v && goodV v && goodF fs

def goodE : List (JSVal × JSVal) → Bool
  | [] => true
  | (k, v) :: es => goodV k && goodV v && goodE es

end

def good (v : JSVal) : Bool := goodV v && !isUndef v

/-! ## The store engine (`src/core/store.ts`) -/

/-- The persisted envelope `StoredData<T>` (`src/types/index.ts`): the
value plus optional version, write timestamp and absolute expiry, all
epoch-millisecond integers. -/
structure SD (V : Type) where
  value : V
  version : Option Int := none
  timestamp : Option Int := none
  expiresAt : Option Int := none
deriving DecidableEq

/-- Observable events of one operation: `onValidationError` invocations,
`console.warn` / `console.error` output, and subscriber callback
invocations (id and delivered value). -/
inductive Ev (V : Type) where
  | errCb (key : String) (msg : String)
  | warn (key : String)
  | logErr (msg : String)
  | notify (id : Nat) (v : Option V)
deriving DecidableEq

/-- A subscriber callback: identified by `id`, and possibly throwing when
run on a delivered value. -/
structure Cb (V : Type) where
  id : Nat
  run : Option V → Except String Unit

/-- `ValidationResult<T>`: `{ success, data?, error? }`. -/
structure VRes (V : Type) where
  success : Bool
  data : Option V := none
  errMsg : String := ""

/-- `SchemaValidator<T>`: a throwing `parse`, and optionally a
`safeParse` (which may itself throw — the code wraps both in `try`). -/
structure SchemaV (V : Type) where
  safeParse : Option (V → Except String (VRes V)) := none
  parse : V → Except String V

/-- The browser storage backend: a total string-keyed map. -/
abbrev Backend (R : Type) := String → Option R

def updateK {R : Type} (b : Backend R) (key : String) (r : R) : Backend R :=
  fun k => if k = key then some r else b k

def removeK {R : Type} (b : Backend R) (key : String) : Backend R :=
  fun k => if k = key then none else b k

/-- The store configuration captured by `createStore`'s closure: key,
schema, optional version / migration / TTL / default value, presence of
the `onValidationError` callback, and the (pluggable) serializer pair —
`deser` includes the unchecked `as StoredData<T>` cast. -/
structure Opts (V R : Type) where
  key : String
  schema : SchemaV V
  version : Option Int := none
  migrate : Option (V → Except String V) := none
  ttl : Option Int := none
  defaultValue : Option V := none
  hasErrCb : Bool := false
  ser : SD V → Except String R
  deser : R → Except String (SD V)

variable {V R : Type}

/-- JS truthiness of an optional number: absent or zero is falsy. -/
def truthyI : Option Int → Bool
  | none => false
  | some n => decide (n ≠ 0)

/-- Events emitted by `onValidationError(error, key)` when the callback is
configured. -/
def errEvs (o : Opts V R) (msg : String) : List (Ev V) :=
  if o.hasErrCb then [.errCb o.key msg] else []

/-- `validate` (`store.ts` lines 45–67): prefer `safeParse`; on
`success && data !== undefined` return the data, otherwise report through
the callback and return null.  Without `safeParse`, fall back to the
throwing `parse`; any exception is caught, reported, and becomes null. -/
def validate (o : Opts V R) (data : V) : Option V × List (Ev V) :=
  match o.schema.safeParse with
  | some sp =>
    match sp data with
    | .ok r =>
      match r.success, r.data with
      | true, some d => (some d, [])
      | _, _ => (none, errEvs o r.errMsg)
    | .error e => (none, errEvs o e)
  | none =>
    match o.schema.parse data with
    | .ok v => (some v, [])
    | .error e => (none, errEvs o e)

/-- `isExpired` (`store.ts` lines 72–77): a falsy `expiresAt` (absent or
zero) never expires; otherwise expired iff `Date.now() > expiresAt`. -/
def isExpired (now : Int) (sd : SD V) : Bool :=
  match sd.expiresAt with
  | none => false
  | some e => if e = 0 then false else decide (e < now)

/-- `migrateData` (`store.ts` lines 82–110): no-op unless both a truthy
version and a migration function are configured; stored version equal to
the target is a no-op; a truthy stored version greater than the target
warns and passes the value through; otherwise the migration function runs,
with failures logged, reported, and collapsed to null. -/
def migrateData (o : Opts V R) (sd : SD V) : Option V × List (Ev V) :=
  match o.version, o.migrate with
  | some v, some f =>
    if v = 0 then (some sd.value, [])
    else if sd.version = some v then (some sd.value, [])
    else if truthyI sd.version && decide (v < sd.version.getD 0) then
      (some sd.value, [.warn o.key])
    else
      match f sd.value with
      | .ok nv => (some nv, [])
      | .error e => (none, .logErr e :: errEvs o e)
  | _, _ => (some sd.value, [])

/-- `notifyCallbacks` (`store.ts` lines 243–251): invoke every callback in
order with the value; a callback's exception is caught and logged inside
the loop, so the iteration continues and nothing propagates. -/
def notifyCallbacks (cbs : List (Cb V)) (v : Option V) : List (Ev V) :=
  match cbs with
  | [] => []
  | cb :: rest =>
    match cb.run v with
    | .ok _ => .notify cb.id v :: notifyCallbacks rest v
    | .error e => .notify cb.id v :: .logErr e :: notifyCallbacks rest v

/-- The `StoredRecord` literal built by `_setInternal` (`store.ts` lines
168–177): validated value, configured version, current timestamp, and —
when a truthy TTL is configured — `expiresAt = Date.now() + ttl`. -/
def mkRecord (o : Opts V R) (now : Int) (vd : V) : SD V :=
  { value := vd
    version := o.version
    timestamp := some now
    expiresAt :=
      match o.ttl with
      | none => none
      | some t => if t = 0 then none else some (now + t) }

/-- `_setInternal` (`store.ts` lines 161–189): validate (failure throws
`Validation failed` after the callback reported it, writing nothing),
build the record, serialize (failure is logged and re-thrown), persist,
then synchronously notify all local subscribers with the validated value. -/
def setInternal (o : Opts V R) (cbs : List (Cb V)) (now : Int) (b : Backend R) (data : V) :
    Except String Unit × Backend R × List (Ev V) :=
  match validate o data with
  | (none, ev1) => (.error "Validation failed", b, ev1 ++ [.logErr "Validation failed"])
  | (some vd, ev1) =>
    match o.ser (mkRecord o now vd) with
    | .error e => (.error e, b, ev1 ++ [.logErr e])
    | .ok raw => (.ok (), updateK b o.key raw, ev1 ++ notifyCallbacks cbs (some vd))

/-- Body of the `try` block of `get` (`store.ts` lines 116–147): absent raw
string yields the default; deserialization failures propagate (to the
catch); an expired record is deleted and yields the default; migration
failure yields the default; validation failure deletes the record and
yields the default; finally, whenever a truthy version is configured and
the stored version differs from it, the value is rewritten through
`set` (whose exceptions also propagate to the catch). -/
def getTry (o : Opts V R) (cbs : List (Cb V)) (now : Int) (b : Backend R) :
    Except String (Option V) × Backend R × List (Ev V) :=
  match b o.key with
  | none => (.ok o.defaultValue, b, [])
  | some raw =>
    match o.deser raw with
    | .error e => (.error e, b, [])
    | .ok sd =>
      if isExpired now sd then
        (.ok o.defaultValue, removeK b o.key, [])
      else
        match migrateData o sd with
        | (none, ev1) => (.ok o.defaultValue, b, ev1)
        | (some value, ev1) =>
          match validate o value with
          | (none, ev2) => (.ok o.defaultValue, removeK b o.key, ev1 ++ ev2)
          | (some value2, ev2) =>
            if truthyI o.version && decide (sd.version ≠ o.version) then
              match setInternal o cbs now b value2 with
              | (.ok _, b2, ev3) => (.ok (some value2), b2, ev1 ++ ev2 ++ ev3)
              | (.error e, b2, ev3) => (.error e, b2, ev1 ++ ev2 ++ ev3)
            else
              (.ok (some value2), b, ev1 ++ ev2)

/-- `get` (`store.ts` lines 115–156): the pipeline body wrapped in the
outer `try`/`catch`; a caught exception is logged, reported through the
callback when configured, and collapses to the default (or null). -/
def get (o : Opts V R) (cbs : List (Cb V)) (now : Int) (b : Backend R) :
    Except String (Option V) × Backend R × List (Ev V) :=
  match getTry o cbs now b with
  | (.ok v, b2, evs) => (.ok v, b2, evs)
  | (.error e, b2, evs) => (.ok o.defaultValue, b2, evs ++ .logErr e :: errEvs o e)

/-- `remove` (`store.ts` lines 212–215): delete the key unconditionally and
notify subscribers with null. -/
def removeOp (o : Opts V R) (cbs : List (Cb V)) (b : Backend R) :
    Backend R × List (Ev V) :=
  (removeK b o.key, notifyCallbacks cbs none)

/-- `has` (`store.ts` lines 221–223): `get() !== null`, re-running the full
read pipeline including its side effects. -/
def hasOp (o : Opts V R) (cbs : List (Cb V)) (now : Int) (b : Backend R) :
    Bool × Backend R × List (Ev V) :=
  match get o cbs now b with
  | (.ok (some _), b2, evs) => (true, b2, evs)
  | (_, b2, evs) => (false, b2, evs)

/-- A foreign-tab `StorageEvent`: affected key (null when the whole storage
was cleared) and new raw value (null when the key was removed). -/
structure SEvent (R : Type) where
  key : Option String
  newValue : Option R

/-- `handleStorageEvent` (`store.ts` lines 256–287): ignore other keys;
a cleared key notifies null; otherwise deserialize (exceptions caught and
logged), an expired record notifies null, and the migrated, validated
value is delivered only when both stages produce a value. -/
def handleStorageEvent (o : Opts V R) (cbs : List (Cb V)) (now : Int) (ev : SEvent R) :
    List (Ev V) :=
  if ev.key ≠ some o.key then []
  else
    match ev.newValue with
    | none => notifyCallbacks cbs none
    | some raw =>
      match o.deser raw with
      | .error e => [.logErr e]
      | .ok sd =>
        if isExpired now sd then notifyCallbacks cbs none
        else
          match migrateData o sd with
          | (none, ev1) => ev1
          | (some value, ev1) =>
            match validate o value with
            | (none, ev2) => ev1 ++ ev2
            | (some v2, ev2) => ev1 ++ ev2 ++ notifyCallbacks cbs (some v2)

/-! ## The default serializer plugged into the store

`createStore` uses `defaultSerializer` unless one is supplied; the raw type
is JSON text and `deser` is `deserialize` followed by the unchecked
`as StoredData<T>` duck-typed field access. -/

/-- Numeric field extraction from the duck-typed record: `version`,
`timestamp`, `expiresAt` are used as numbers; a non-numeric field is
modelled as absent (its JS truthiness/comparison coercions are outside
every claim under study). -/
def numField : Option JSVal → Option Int
  | some (.jnum n) => some n
  | _ => none

/-- The unchecked `as StoredData<T>` cast plus subsequent field accesses:
property access on `null`/`undefined` throws (surfacing in `get`'s outer
catch exactly where `isExpired` would have dereferenced it); on any other
value, absent properties read as `undefined`. -/
def castSD : JSVal → Except String (SD JSVal)
  | .jnull => .error "TypeError: cannot read properties of null"
  | .jundef => .error "TypeError: cannot read properties of undefined"
  | .jobj fs =>
    .ok { value := (lookupF fs "value").getD .jundef
          version := numField (lookupF fs "version")
          timestamp := numField (lookupF fs "timestamp")
          expiresAt := numField (lookupF fs "expiresAt") }
  | _ =>
    .ok { value := .jundef, version := none, timestamp := none, expiresAt := none }

/-- The object literal `_setInternal` passes to `serialize`: `value`,
`version` and `timestamp` always present (`version` possibly `undefined`),
`expiresAt` added only under a truthy TTL. -/
def sdToJSVal (sd : SD JSVal) : JSVal :=
  .jobj ([("value", sd.value),
          ("version", (sd.version.map JSVal.jnum).getD .jundef),
          ("timestamp", (sd.timestamp.map JSVal.jnum).getD .jundef)] ++
         (match sd.expiresAt with
          | none => []
          | some e => [("expiresAt", JSVal.jnum e)]))

def defaultSer (sd : SD JSVal) : Except String JText :=
  .ok (serialize (sdToJSVal sd))

def defaultDeser (txt : JText) : Except String (SD JSVal) :=
  match deserialize txt with
  | .error e => .error e
  | .ok v => castSD v

/-! ## Concrete instances used in counterexamples and witnesses -/

/-- A validator that accepts everything unchanged (e.g. `z.any()`). -/
def passSchema (V : Type) : SchemaV V :=
  { safeParse := some (fun v => .ok { success := true, data := some v })
    parse := fun v => .ok v }

/-- A validator accepting exactly the non-negative integers. -/
def nonnegSchema : SchemaV Int :=
  { safeParse := some (fun v =>
      .ok (if 0 ≤ v then { success := true, data := some v }
           else { success := false, errMsg := "too small" }))
    parse := fun v => .ok v }

/-- Identity serializer pair over `R := SD Int`, for store-level scenarios
that do not involve the text layer. -/
def idSer : SD Int → Except String (SD Int) := fun sd => .ok sd

def idDeser : SD Int → Except String (SD Int) := fun sd => .ok sd

/-- Store with the default serializer and a configured default value
(counterexample to the self-healing claim). -/
def storeC1 : Opts JSVal JText :=
  { key := "k", schema := passSchema JSVal, defaultValue := some (.jstr "d")
    ser := defaultSer, deser := defaultDeser }

/-- Backend holding syntactically invalid text under `storeC1`'s key. -/
def backC1 : Backend JText := fun k => if k = "k" then some none else none

/-- Store whose (custom) serializer fails on every raw value; exercises
the deserialization-failure path of `get` in witnesses. -/
def storeW1 : Opts Int Int :=
  { key := "w", schema := passSchema Int, defaultValue := some 7, hasErrCb := true
    ser := fun _ => .ok 0, deser := fun _ => .error "bad" }

def backW1 : Backend Int := fun k => if k = "w" then some 3 else none

/-- Store at version 2 whose migration function replaces any value by 99
(counterexample to the no-version-no-migration claim). -/
def storeC2 : Opts Int (SD Int) :=
  { key := "k", schema := passSchema Int, version := some 2
    migrate := some (fun _ => .ok 99)
    ser := fun sd => .ok sd, deser := fun sd => .ok sd }

/-- Store at version 3 whose migration function increments
(witness for the migration gating rules). -/
def storeW2 : Opts Int (SD Int) :=
  { key := "k", schema := passSchema Int, version := some 3
    migrate := some (fun x => .ok (x + 1))
    ser := fun sd => .ok sd, deser := fun sd => .ok sd }

/-- Store at version 1 with an identity migration
(counterexample to the no-rewrite-on-newer-version claim). -/
def storeC3 : Opts Int (SD Int) :=
  { key := "k", schema := passSchema Int, version := some 1
    migrate := some (fun x => .ok x)
    ser := fun sd => .ok sd, deser := fun sd => .ok sd }

/-- Backend holding a record written under the newer version 2. -/
def backC3 : Backend (SD Int) :=
  fun k => if k = "k" then some { value := 5, version := some 2 } else none

/-- Plain store over the identity serializer. -/
def storeP : Opts Int (SD Int) :=
  { key := "k", schema := passSchema Int
    ser := fun sd => .ok sd, deser := fun sd => .ok sd }

/-- Backend holding a record that expired at time 10. -/
def backExp : Backend (SD Int) :=
  fun k => if k = "k" then some { value := 5, expiresAt := some 10 } else none

/-- Store configured with the rejecting validator, an error callback, and
a TTL of 50 ms (witness for the write pipeline). -/
def storeW6 : Opts Int (SD Int) :=
  { key := "k", schema := nonnegSchema, hasErrCb := true, ttl := some 50
    ser := fun sd => .ok sd, deser := fun sd => .ok sd }

/-- Store with a default value (witness for the default/has claim). -/
def storeW10 : Opts Int (SD Int) :=
  { key := "k", schema := passSchema Int, defaultValue := some 42
    ser := fun sd => .ok sd, deser := fun sd => .ok sd }

/-- An empty backend. -/
def emptyBack : Backend (SD Int) := fun _ => none

/-- A subscriber that always throws, and one that never does. -/
def throwingCb : Cb Int := { id := 0, run := fun _ => .error "cb boom" }

def okCb : Cb Int := { id := 1, run := fun _ => .ok () }

/-! ## Round-trip of the default serializer -/

theorem goodF_parts {k : String} {v : JSVal} {fs : List (String × JSVal)}
    (h : goodF ((k, v) :: fs) = true) :
    k ≠ "__type" ∧ isUndef v = false ∧ goodV v = true ∧ goodF fs = true := by
  simp only [goodF, Bool.and_eq_true, decide_eq_true_eq, Bool.not_eq_true'] at h
  exact ⟨h.1.1.1, h.1.1.2, h.1.2, h.2⟩

theorem goodF_no_type (fs : List (String × JSVal)) (h : goodF fs = true) :
    lookupF fs "__type" = none := by
  induction fs with
  | nil => rfl
  | cons p fs ih =>
    obtain ⟨k, v⟩ := p
    obtain ⟨hk, _, _, hfs⟩ := goodF_parts h
    simp [lookupF, hk, ih hfs]

theorem goodF_no_undef (fs : List (String × JSVal)) (h : goodF fs = true) :
    List.filter (fun p => !isUndef p.2) fs = fs := by
  induction fs with
  | nil => rfl
  | cons p fs ih =>
    obtain ⟨k, v⟩ := p
    obtain ⟨_, hv, _, hfs⟩ := goodF_parts h
    simp [List.filter, hv, ih hfs]

theorem entriesOf_pairs (es : List (JSVal × JSVal)) :
    entriesOf (es.map (fun p => .jarr [p.1, p.2])) = .ok es := by
  induction es with
  | nil => rfl
  | cons p es ih => simp [entriesOf, entryOf, ih]

mutual

theorem dec_enc : ∀ (v : JSVal), goodV v = true → dec (enc v) = .ok v
  | .jnull, _ => rfl
  | .jbool _, _ => rfl
  | .jnum _, _ => rfl
  | .jstr _, _ => rfl
  | .jdate _, _ => rfl
  | .jundef, _ => rfl
  | .jarr xs, h => by
    have hl := decList_encList xs (by simpa [goodV] using h)
    simp [enc, dec, hl]
  | .jobj fs, h => by
    have hf : goodF fs = true := by simpa [goodV] using h
    have hl := decFields_encFields fs hf
    simp [enc, dec, hl, goodF_no_undef fs hf, reviveTag, goodF_no_type fs hf]
  | .jmap es, h => by
    have hl := decEntries_encEntries es (by simpa [goodV] using h)
    simp [enc, dec, decFields, decList, hl, List.filter, isUndef, reviveTag, lookupF,
      entriesOf_pairs]
  | .jset xs, h => by
    have hl := decList_encList xs (by simpa [goodV] using h)
    simp [enc, dec, decFields, decList, hl, List.filter, isUndef, reviveTag, lookupF]

theorem decList_encList : ∀ (xs : List JSVal), goodL xs = true → decList (encList xs) = .ok xs
  | [], _ => rfl
  | x :: xs, h => by
    have hx : goodV x = true := by
      simp only [goodL, Bool.and_eq_true] at h; exact h.1
    have hxs : goodL xs = true := by
      simp only [goodL, Bool.and_eq_true] at h; exact h.2
    simp [encList, decList, dec_enc x hx, decList_encList xs hxs]

theorem decFields_encFields :
    ∀ (fs : List (String × JSVal)), goodF fs = true →
      decFields (encFields fs) = .ok fs
  | [], _ => rfl
  | (k, v) :: fs, h => by
    obtain ⟨_, _, hv, hfs⟩ := goodF_parts h
    simp [encFields, decFields, dec_enc v hv, decFields_encFields fs hfs]

theorem decEntries_encEntries :
    ∀ (es : List (JSVal × JSVal)), goodE es = true →
      decList (encEntries es) = .ok (es.map (fun p => .jarr [p.1, p.2]))
  | [], _ => rfl
  | (k, v) :: es, h => by
    have h3 : (goodV k = true ∧ goodV v = true) ∧ goodE es = true := by
      simpa [goodE, Bool.and_eq_true] using h
    simp [encEntries, decList, dec, dec_enc k h3.1.1, dec_enc v h3.1.2,
      decEntries_encEntries es h3.2]

end

/-- C4 (amended): `deserialize(serialize(v))` is deep-equal to `v` for every
value `v` built from JSON primitives, objects, arrays, `Date`, `Map`, `Set`
and the `undefined` sentinel, nested to any depth — provided `undefined`
does not occur as the top-level value or as a direct object-property value
(the `JSON.parse` reviver deletes such properties, so they are lost), and no
object carries the reserved `__type` key (the reviver would re-interpret
it).  Inside arrays, `Map` entries and `Set` elements, `undefined` round-trips
exactly, and every special type may itself be the top-level value. -/
theorem serializer_roundtrip (v : JSVal) (h : good v = true) :
    deserialize (serialize v) = .ok v := by
  have hg : goodV v = true ∧ isUndef v = false := by
    simpa [good, Bool.and_eq_true, Bool.not_eq_true'] using h
  simp [serialize, deserialize, dec, decFields, dec_enc v hg.1, List.filter, hg.2,
    reviveTag, lookupF, unwrapRoot]

/-- C4 (witness): a nested value combining objects, arrays, `Date`, `Map`,
`Set` and an in-array `undefined`, with a top-level `Map`, satisfies the
well-formedness predicate and round-trips exactly. -/
theorem serializer_roundtrip_witness :
    good (.jmap [(.jdate "2024-01-01T00:00:00.000Z",
                  .jobj [("a", .jarr [.jundef, .jnum 3]),
                         ("b", .jset [.jnull, .jbool true])]),
                 (.jstr "s", .jnum (-2))]) = true ∧
    deserialize (serialize (.jmap [(.jdate "2024-01-01T00:00:00.000Z",
                  .jobj [("a", .jarr [.jundef, .jnum 3]),
                         ("b", .jset [.jnull, .jbool true])]),
                 (.jstr "s", .jnum (-2))])) =
      .ok (.jmap [(.jdate "2024-01-01T00:00:00.000Z",
                  .jobj [("a", .jarr [.jundef, .jnum 3]),
                         ("b", .jset [.jnull, .jbool true])]),
                 (.jstr "s", .jnum (-2))]) :=
  ⟨rfl, serializer_roundtrip _ rfl⟩

/-- C4 (counterexample): the claim as stated fails when the special type at
the top level is the `undefined` sentinel: the reviver turns the tagged
`__root` property back into `undefined`, `JSON.parse` thereupon deletes the
property, and `deserialize` returns the emptied envelope `{}` — not
`undefined`.  So `deserialize(serialize(undefined))` is the empty object,
which is not deep-equal to `undefined`. -/
theorem serializer_roundtrip_counterexample :
    deserialize (serialize .jundef) = .ok (.jobj []) ∧
    JSVal.jobj [] ≠ JSVal.jundef :=
  ⟨rfl, fun h => JSVal.noConfusion h⟩

/-! ## Shared lemmas about the store pipeline -/

theorem notify_mem (cbs : List (Cb V)) (v : Option V) (c : Cb V) (hc : c ∈ cbs) :
    Ev.notify c.id v ∈ notifyCallbacks cbs v := by
  induction cbs with
  | nil => cases hc
  | cons cb rest ih =>
    rcases List.mem_cons.mp hc with h | h
    · cases hr : cb.run v <;> simp [notifyCallbacks, hr, h]
    · cases hr : cb.run v <;> simp [notifyCallbacks, hr, ih h]

theorem validate_none_errCb (o : Opts V R) (data : V)
    (hfail : (validate o data).1 = none) (hcb : o.hasErrCb = true) :
    ∃ m, Ev.errCb o.key m ∈ (validate o data).2 := by
  unfold validate at hfail ⊢
  match hsp : o.schema.safeParse with
  | some sp =>
    simp only [hsp] at hfail ⊢
    match hr : sp data with
    | .ok r =>
      simp only [hr] at hfail ⊢
      match hs : r.success, hd : r.data with
      | true, some d => simp [hs, hd] at hfail
      | true, none => exact ⟨r.errMsg, by simp [hs, hd, errEvs, hcb]⟩
      | false, some d => exact ⟨r.errMsg, by simp [hs, hd, errEvs, hcb]⟩
      | false, none => exact ⟨r.errMsg, by simp [hs, hd, errEvs, hcb]⟩
    | .error e => exact ⟨e, by simp [hr, errEvs, hcb]⟩
  | none =>
    simp only [hsp] at hfail ⊢
    match hp : o.schema.parse data with
    | .ok v => simp [hp] at hfail
    | .error e => exact ⟨e, by simp [hp, errEvs, hcb]⟩

theorem notify_notin_errEvs (o : Opts V R) (msg : String) (i : Nat) (w : Option V) :
    Ev.notify i w ∉ errEvs o msg := by
  cases h : o.hasErrCb <;> simp [errEvs, h]

theorem notify_notin_validate (o : Opts V R) (data : V) (i : Nat) (w : Option V) :
    Ev.notify i w ∉ (validate o data).2 := by
  unfold validate
  match hsp : o.schema.safeParse with
  | some sp =>
    simp only [hsp]
    match hr : sp data with
    | .ok r =>
      simp only [hr]
      match hs : r.success, hd : r.data with
      | true, some d => simp [hs, hd]
      | true, none => simp only [hs, hd]; simpa using notify_notin_errEvs o r.errMsg i w
      | false, some d => simp only [hs, hd]; simpa using notify_notin_errEvs o r.errMsg i w
      | false, none => simp only [hs, hd]; simpa using notify_notin_errEvs o r.errMsg i w
    | .error e => simp only [hr]; simpa using notify_notin_errEvs o e i w
  | none =>
    simp only [hsp]
    match hp : o.schema.parse data with
    | .ok v => simp [hp]
    | .error e => simp only [hp]; simpa using notify_notin_errEvs o e i w

theorem notify_notin_migrate (o : Opts V R) (sd : SD V) (i : Nat) (w : Option V) :
    Ev.notify i w ∉ (migrateData o sd).2 := by
  unfold migrateData
  match hv : o.version, hm : o.migrate with
  | some v, some f =>
    by_cases h0 : v = 0
    · simp [h0]
    · by_cases h1 : sd.version = some v
      · simp [h0, h1]
      · by_cases h2 : (truthyI sd.version && decide (v < sd.version.getD 0)) = true
        · simp [h0, h1, h2]
        · match hf : f sd.value with
          | .ok nv => simp [h0, h1, h2, hf]
          | .error e =>
            simp only [h0, h1, h2, hf, if_false, if_neg, Bool.not_eq_true]
            simpa using notify_notin_errEvs o e i w
  | some v, none => simp
  | none, some f => simp
  | none, none => simp

theorem setInternal_fail (o : Opts V R) (cbs : List (Cb V)) (now : Int) (b : Backend R)
    (data : V) (hval : (validate o data).1 = none) :
    setInternal o cbs now b data =
      (.error "Validation failed", b, (validate o data).2 ++ [.logErr "Validation failed"]) := by
  rcases hv : validate o data with ⟨r, evs⟩
  rw [hv] at hval
  simp only at hval
  subst hval
  simp [setInternal, hv]

theorem setInternal_ok (o : Opts V R) (cbs : List (Cb V)) (now : Int) (b : Backend R)
    (data vd : V) (ev1 : List (Ev V)) (raw : R)
    (hval : validate o data = (some vd, ev1))
    (hser : o.ser (mkRecord o now vd) = .ok raw) :
    setInternal o cbs now b data =
      (.ok (), updateK b o.key raw, ev1 ++ notifyCallbacks cbs (some vd)) := by
  simp [setInternal, hval, hser]

theorem migrateData_eq_version (o : Opts V R) (v : Int) (f : V → Except String V)
    (sd : SD V) (hv : o.version = some v) (hv0 : v ≠ 0) (hm : o.migrate = some f)
    (hsd : sd.version = some v) :
    migrateData o sd = (some sd.value, []) := by
  simp [migrateData, hv, hm, hv0, hsd]

theorem migrateData_newer (o : Opts V R) (v u : Int) (f : V → Except String V)
    (sd : SD V) (hv : o.version = some v) (hv0 : v ≠ 0) (hm : o.migrate = some f)
    (hsd : sd.version = some u) (hu0 : u ≠ 0) (hlt : v < u) :
    migrateData o sd = (some sd.value, [.warn o.key]) := by
  have hne : u ≠ v := by omega
  simp [migrateData, hv, hm, hv0, hsd, hne, truthyI, hu0, hlt]

theorem migrateData_runs (o : Opts V R) (v : Int) (f : V → Except String V)
    (sd : SD V) (hv : o.version = some v) (hv0 : v ≠ 0) (hm : o.migrate = some f)
    (hsd : sd.version = none ∨ ∃ u, sd.version = some u ∧ (u = 0 ∨ u < v)) :
    (migrateData o sd).1 = (f sd.value).toOption := by
  have hcond : ¬(sd.version = some v) ∧
      (truthyI sd.version && decide (v < sd.version.getD 0)) = false := by
    rcases hsd with h | ⟨u, hu, hc⟩
    · exact ⟨by simp [h], by simp [h, truthyI]⟩
    · rcases hc with h0 | hlt
      · subst h0
        exact ⟨by simp [hu, Ne.symm hv0], by simp [hu, truthyI]⟩
      · refine ⟨by simp [hu]; omega, ?_⟩
        have : ¬(v < u) := by omega
        simp [hu, truthyI, this]
  match hf : f sd.value with
  | .ok nv => simp [migrateData, hv, hm, hv0, hcond.1, hcond.2, hf, Except.toOption]
  | .error e => simp [migrateData, hv, hm, hv0, hcond.1, hcond.2, hf, Except.toOption]

/-! ## C1 — self-healing on syntactically invalid text -/

/-- C1 (amended): when the backend holds text the serializer's
`deserialize` fails on, `get()` returns the configured default (or null)
and reports through the error callback when configured, but the backend is
left completely unchanged: the offending record is *not* deleted
(self-healing deletion happens only on expiration and on validation
failure; a deserialization failure lands in `get`'s outer catch, which
never touches storage). -/
theorem get_deser_error (o : Opts V R) (cbs : List (Cb V)) (now : Int) (b : Backend R)
    (raw : R) (e : String) (hb : b o.key = some raw) (hd : o.deser raw = .error e) :
    get o cbs now b = (.ok o.defaultValue, b, .logErr e :: errEvs o e) := by
  simp [get, getTry, hb, hd]

/-- C1 (witness): a store whose deserializer rejects the stored raw value,
with default 7 and an error callback configured: `get` returns the default,
logs and reports, and the backend is exactly what it was. -/
theorem get_deser_error_witness :
    get storeW1 [] 0 backW1 =
      (.ok (some 7), backW1, [Ev.logErr "bad", Ev.errCb "w" "bad"]) := by
  have h := get_deser_error storeW1 [] 0 backW1 3 "bad" rfl rfl
  simpa [errEvs, storeW1] using h

/-- C1 (counterexample): the claim as stated is false: with syntactically
invalid text (here, unparseable JSON) stored under the key of a store using
the default serializer, `get()` does return the configured default, but the
key is *not* absent afterwards — the invalid text is still there. -/
theorem get_deser_error_counterexample :
    (get storeC1 [] 0 backC1).1 = .ok (some (.jstr "d")) ∧
    ((get storeC1 [] 0 backC1).2.1) "k" = some (none : JText) :=
  ⟨rfl, rfl⟩

/-! ## C2 — migration gating -/

/-- C2 (amended): with a truthy target version and a migration function
configured, the migration function is invoked exactly when the stored
version is falsy (absent or zero) or strictly less than the target; a
stored version equal to the target leaves the value as-is with no events,
and a truthy stored version greater than the target leaves the value as-is
with a warning.  In particular — contrary to the claim as stated — a record
carrying *no* version field IS migrated. -/
theorem migration_gating (o : Opts V R) (v : Int) (f : V → Except String V) (sd : SD V)
    (hv : o.version = some v) (hv0 : v ≠ 0) (hm : o.migrate = some f) :
    (sd.version = some v → migrateData o sd = (some sd.value, [])) ∧
    (∀ u, sd.version = some u → u ≠ 0 → v < u →
        migrateData o sd = (some sd.value, [.warn o.key])) ∧
    (sd.version = none → (migrateData o sd).1 = (f sd.value).toOption) ∧
    (sd.version = some 0 → (migrateData o sd).1 = (f sd.value).toOption) ∧
    (∀ u, sd.version = some u → u < v → (migrateData o sd).1 = (f sd.value).toOption) := by
  refine ⟨fun h => migrateData_eq_version o v f sd hv hv0 hm h,
          fun u hu hu0 hlt => migrateData_newer o v u f sd hv hv0 hm hu hu0 hlt,
          fun h => migrateData_runs o v f sd hv hv0 hm (Or.inl h),
          fun h => migrateData_runs o v f sd hv hv0 hm (Or.inr ⟨0, h, Or.inl rfl⟩),
          fun u hu hlt => migrateData_runs o v f sd hv hv0 hm (Or.inr ⟨u, hu, Or.inr hlt⟩)⟩

/-- C2 (witness): for the version-3 store with incrementing migration, a
record already at version 3 is left as-is, and a record with no version
field is migrated (5 becomes 6). -/
theorem migration_gating_witness :
    migrateData storeW2 { value := 5, version := some 3 } = (some 5, []) ∧
    (migrateData storeW2 { value := 5 }).1 = some 6 := by
  have h1 := (migration_gating storeW2 3 (fun x => .ok (x + 1))
    { value := 5, version := some 3 } rfl (by decide) rfl).1 rfl
  have h2 := (migration_gating storeW2 3 (fun x => .ok (x + 1))
    { value := 5 } rfl (by decide) rfl).2.2.1 rfl
  exact ⟨h1, by simpa [Except.toOption] using h2⟩

/-- C2 (counterexample): the claim as stated says a stored record carrying
no version field is used as-is with no migration; but for the version-2
store whose migration function maps everything to 99, a versionless record
with value 1 comes out of `migrateData` as 99 — the migration function was
invoked. -/
theorem migration_gating_counterexample :
    (migrateData storeC2 { value := 1 }).1 = some 99 ∧
    some (99 : Int) ≠ some (1 : Int) :=
  ⟨rfl, by decide⟩

/-! ## C3 — newer stored version: pass-through, but with a rewrite -/

/-- C3 (amended): when the stored version is strictly greater than the
configured target version, the value is used as-is with no migration and a
non-fatal warning is emitted — but, contrary to the claim as stated, the
persisted record IS rewritten: `get` re-persists through the normal `set`
path whenever the stored version differs from the configured one, stamping
the record at the *current* (older) version — an automatic version-stamp
downgrade. -/
theorem newer_version_rewrite (o : Opts V R) (cbs : List (Cb V)) (now : Int)
    (b : Backend R) (v u : Int) (f : V → Except String V) (raw raw2 : R) (sd : SD V)
    (hv : o.version = some v) (hv0 : v ≠ 0) (hm : o.migrate = some f)
    (hb : b o.key = some raw) (hd : o.deser raw = .ok sd)
    (hu : sd.version = some u) (hu0 : u ≠ 0) (hlt : v < u)
    (hexp : isExpired now sd = false)
    (hval : validate o sd.value = (some sd.value, []))
    (hser : o.ser (mkRecord o now sd.value) = .ok raw2) :
    get o cbs now b = (.ok (some sd.value), updateK b o.key raw2,
      Ev.warn o.key :: notifyCallbacks cbs (some sd.value)) ∧
    (mkRecord o now sd.value).version = some v := by
  have hmig := migrateData_newer o v u f sd hv hv0 hm hu hu0 hlt
  have hset := setInternal_ok o cbs now b sd.value sd.value [] raw2 hval hser
  have hne : sd.version ≠ o.version := by simp [hu, hv]; omega
  have hne2 : ¬(sd.version = some v) := by simp [hu]; omega
  constructor
  · simp [get, getTry, hb, hd, hexp, hmig, hval, hv, truthyI, hv0, hne, hne2, hset]
  · simp [mkRecord, hv]

/-- C3 (witness): the version-1 store reading a record written at version 2
returns the value as-is with a warning, and rewrites the backend with the
record re-stamped at version 1. -/
theorem newer_version_rewrite_witness :
    get storeC3 [] 0 backC3 =
      (.ok (some 5),
       updateK backC3 "k" { value := 5, version := some 1, timestamp := some 0 },
       [Ev.warn "k"]) := by
  have h := newer_version_rewrite storeC3 [] 0 backC3 1 2 (fun x => .ok x)
    { value := 5, version := some 2 } { value := 5, version := some 1, timestamp := some 0 }
    { value := 5, version := some 2 }
    rfl (by decide) rfl rfl rfl rfl (by decide) (by decide) rfl rfl rfl
  simpa [notifyCallbacks] using h.1

/-- C3 (counterexample): the claim as stated says the persisted record is
not rewritten when the stored version is newer; but after `get` on the
version-1 store with a stored version-2 record, the backend holds a
*different* record, stamped at version 1. -/
theorem newer_version_rewrite_counterexample :
    ((get storeC3 [] 0 backC3).2.1) "k" =
      some { value := 5, version := some 1, timestamp := some 0 } ∧
    ((get storeC3 [] 0 backC3).2.1) "k" ≠ backC3 "k" := by
  constructor
  · decide
  · decide

/-! ## C5 — expiration policy -/

/-- C5 (amended): a record with no `expiresAt` never expires; a record with
`expiresAt = 0` also never expires (zero is falsy in the `!expiresAt`
guard — the one divergence from the claim as stated); a record with any
other `expiresAt` is expired iff the current time is strictly greater; and
`get` on an expired record deletes the key from storage and returns the
configured default (or null). -/
theorem expiration_policy (o : Opts V R) (cbs : List (Cb V)) (now : Int)
    (b : Backend R) (sd : SD V) :
    (sd.expiresAt = none → isExpired now sd = false) ∧
    (sd.expiresAt = some 0 → isExpired now sd = false) ∧
    (∀ e, sd.expiresAt = some e → e ≠ 0 → (isExpired now sd = true ↔ e < now)) ∧
    (∀ raw, b o.key = some raw → o.deser raw = .ok sd → isExpired now sd = true →
        get o cbs now b = (.ok o.defaultValue, removeK b o.key, []) ∧
        removeK b o.key o.key = none) := by
  refine ⟨fun h => by simp [isExpired, h],
          fun h => by simp [isExpired, h],
          fun e he he0 => by simp [isExpired, he, he0],
          fun raw hb hd hexp => ⟨by simp [get, getTry, hb, hd, hexp], by simp [removeK]⟩⟩

/-- C5 (witness): the plain store over a backend holding a record that
expired at time 10, read at time 100: the record is expired, `get` returns
null, and the key is gone from the backend. -/
theorem expiration_policy_witness :
    (isExpired 100 ({ value := 5, expiresAt := some 10 } : SD Int) = true ↔
      (10 : Int) < 100) ∧
    get storeP [] 100 backExp = (.ok none, removeK backExp "k", []) ∧
    removeK backExp "k" "k" = none := by
  have h := expiration_policy storeP [] 100 backExp { value := 5, expiresAt := some 10 }
  have h4 := h.2.2.2 { value := 5, expiresAt := some 10 } rfl rfl (by decide)
  exact ⟨h.2.2.1 10 rfl (by decide), h4.1, h4.2⟩

/-- C5 (counterexample): the claim as stated says a record carrying
`expiresAt` is expired iff the current time is strictly greater; but a
record with `expiresAt = 0` read at time 1 is *not* expired (the guard
`!storedData.expiresAt` treats 0 as absent), even though 0 < 1. -/
theorem expiration_policy_counterexample :
    isExpired 1 ({ value := 0, expiresAt := some 0 } : SD Int) = false ∧
    (0 : Int) < 1 := by
  exact ⟨rfl, by decide⟩

/-! ## C6 — the write pipeline -/

/-- C6 (confirmed): when validation of `data` fails, `set` throws
`Validation failed`, the failure is reported through the configured error
callback when present, and the backend is completely unchanged; when
validation succeeds, `set` persists (under the store's key) the serialized
record carrying the validated value, the configured version, the current
timestamp, and — under a truthy TTL — `expiresAt = now + ttl`, then
synchronously notifies every subscriber with the validated value. -/
theorem set_pipeline (o : Opts V R) (cbs : List (Cb V)) (now : Int)
    (b : Backend R) (data : V) :
    ((validate o data).1 = none →
        (setInternal o cbs now b data).1 = .error "Validation failed" ∧
        (setInternal o cbs now b data).2.1 = b ∧
        (o.hasErrCb = true → ∃ m, Ev.errCb o.key m ∈ (setInternal o cbs now b data).2.2)) ∧
    (∀ vd ev1 raw, validate o data = (some vd, ev1) → o.ser (mkRecord o now vd) = .ok raw →
        setInternal o cbs now b data =
          (.ok (), updateK b o.key raw, ev1 ++ notifyCallbacks cbs (some vd)) ∧
        updateK b o.key raw o.key = some raw ∧
        (∀ c ∈ cbs, Ev.notify c.id (some vd) ∈ (setInternal o cbs now b data).2.2) ∧
        (mkRecord o now vd).value = vd ∧
        (mkRecord o now vd).version = o.version ∧
        (mkRecord o now vd).timestamp = some now ∧
        (o.ttl = none → (mkRecord o now vd).expiresAt = none) ∧
        (∀ t, o.ttl = some t → t ≠ 0 → (mkRecord o now vd).expiresAt = some (now + t))) := by
  constructor
  · intro hfail
    have hset := setInternal_fail o cbs now b data hfail
    refine ⟨by simp [hset], by simp [hset], fun hcb => ?_⟩
    obtain ⟨m, hm⟩ := validate_none_errCb o data hfail hcb
    exact ⟨m, by simp [hset, hm]⟩
  · intro vd ev1 raw hval hser
    have hset := setInternal_ok o cbs now b data vd ev1 raw hval hser
    refine ⟨hset, by simp [updateK], fun c hc => ?_, by simp [mkRecord], by simp [mkRecord],
      by simp [mkRecord], fun h => by simp [mkRecord, h], fun t ht ht0 => by simp [mkRecord, ht, ht0]⟩
    simp [hset, notify_mem cbs (some vd) c hc]

/-- C6 (witness): the TTL-50 store with the non-negative validator and an
error callback: `set(-5)` throws with the callback invoked and the backend
untouched; `set(5)` at time 0 persists the record
`{value 5, timestamp 0, expiresAt 50}` and notifies the subscriber. -/
theorem set_pipeline_witness :
    (setInternal storeW6 [okCb] 0 emptyBack (-5)).1 = .error "Validation failed" ∧
    (setInternal storeW6 [okCb] 0 emptyBack (-5)).2.1 = emptyBack ∧
    (∃ m, Ev.errCb "k" m ∈ (setInternal storeW6 [okCb] 0 emptyBack (-5)).2.2) ∧
    setInternal storeW6 [okCb] 0 emptyBack 5 =
      (.ok (), updateK emptyBack "k" { value := 5, timestamp := some 0, expiresAt := some 50 },
       [Ev.notify 1 (some 5)]) ∧
    (mkRecord storeW6 0 5).expiresAt = some 50 := by
  have h1 := (set_pipeline storeW6 [okCb] 0 emptyBack (-5)).1 (by decide)
  have h2 := (set_pipeline storeW6 [okCb] 0 emptyBack 5).2 5 []
    { value := 5, timestamp := some 0, expiresAt := some 50 } rfl rfl
  exact ⟨h1.1, h1.2.1, h1.2.2 rfl, by simpa [notifyCallbacks, okCb] using h2.1,
    h2.2.2.2.2.2.2.2 50 rfl (by decide)⟩

/-! ## C7 — `get` never throws -/

/-- C7 (confirmed): for every store over arbitrary (fallible) user-supplied
collaborators — schema, migration function, serializer — and every backend
state, `get` returns normally; whenever the pipeline body (`getTry`) raises,
the outer catch returns the configured default (or null) and, when an error
callback is configured, reports the exception through it. -/
theorem get_never_throws (o : Opts V R) (cbs : List (Cb V)) (now : Int) (b : Backend R) :
    (∃ v, (get o cbs now b).1 = .ok v) ∧
    (∀ e, (getTry o cbs now b).1 = .error e →
        (get o cbs now b).1 = .ok o.defaultValue ∧
        (o.hasErrCb = true → Ev.errCb o.key e ∈ (get o cbs now b).2.2)) := by
  rcases hg : getTry o cbs now b with ⟨r, b2, evs⟩
  cases r with
  | ok v =>
    exact ⟨⟨v, by simp [get, hg]⟩, fun e he => by simp at he⟩
  | error e0 =>
    refine ⟨⟨o.defaultValue, by simp [get, hg]⟩, fun e he => ?_⟩
    simp at he
    subst he
    exact ⟨by simp [get, hg], fun hcb => by simp [get, hg, errEvs, hcb]⟩

/-- C7 (witness): the store whose deserializer always fails, with default 7
and an error callback: the pipeline body raises, yet `get` returns the
default and the callback event is present. -/
theorem get_never_throws_witness :
    (get storeW1 [] 0 backW1).1 = .ok (some 7) ∧
    Ev.errCb "w" "bad" ∈ (get storeW1 [] 0 backW1).2.2 := by
  have h := (get_never_throws storeW1 [] 0 backW1).2 "bad" rfl
  exact ⟨by simpa [storeW1] using h.1, h.2 rfl⟩

/-! ## C8 — the cross-tab pipeline -/

/-- C8 (amended): a foreign-tab storage event for a different key triggers
nothing; a cleared key notifies subscribers with null; a deserialization
failure is swallowed and logged with no notification; an *expired* record —
contrary to the claim as stated — also notifies subscribers with null (like
the cleared case), rather than delivering nothing; a migration or
validation failure produces no notification; and when every stage succeeds
every subscriber is notified with the resulting value. -/
theorem cross_tab (o : Opts V R) (cbs : List (Cb V)) (now : Int) (ev : SEvent R) :
    (ev.key ≠ some o.key → handleStorageEvent o cbs now ev = []) ∧
    (ev.key = some o.key → ev.newValue = none →
        handleStorageEvent o cbs now ev = notifyCallbacks cbs none) ∧
    (∀ raw e, ev.key = some o.key → ev.newValue = some raw → o.deser raw = .error e →
        handleStorageEvent o cbs now ev = [.logErr e]) ∧
    (∀ raw sd, ev.key = some o.key → ev.newValue = some raw → o.deser raw = .ok sd →
        isExpired now sd = true →
        handleStorageEvent o cbs now ev = notifyCallbacks cbs none) ∧
    (∀ raw sd, ev.key = some o.key → ev.newValue = some raw → o.deser raw = .ok sd →
        isExpired now sd = false → (migrateData o sd).1 = none →
        ∀ i w, Ev.notify i w ∉ handleStorageEvent o cbs now ev) ∧
    (∀ raw sd value ev1, ev.key = some o.key → ev.newValue = some raw →
        o.deser raw = .ok sd → isExpired now sd = false →
        migrateData o sd = (some value, ev1) → (validate o value).1 = none →
        ∀ i w, Ev.notify i w ∉ handleStorageEvent o cbs now ev) ∧
    (∀ raw sd value ev1 v2 ev2, ev.key = some o.key → ev.newValue = some raw →
        o.deser raw = .ok sd → isExpired now sd = false →
        migrateData o sd = (some value, ev1) → validate o value = (some v2, ev2) →
        handleStorageEvent o cbs now ev = ev1 ++ ev2 ++ notifyCallbacks cbs (some v2) ∧
        (∀ c ∈ cbs, Ev.notify c.id (some v2) ∈ handleStorageEvent o cbs now ev)) := by
  refine ⟨fun hk => by simp [handleStorageEvent, hk], ?_, ?_, ?_, ?_, ?_, ?_⟩
  · intro hk hnv
    simp [handleStorageEvent, hk, hnv]
  · intro raw e hk hnv hd
    simp [handleStorageEvent, hk, hnv, hd]
  · intro raw sd hk hnv hd hexp
    simp [handleStorageEvent, hk, hnv, hd, hexp]
  · intro raw sd hk hnv hd hexp hmig i w
    rcases hm : migrateData o sd with ⟨mv, ev1⟩
    rw [hm] at hmig
    simp only at hmig
    subst hmig
    have hnot := notify_notin_migrate o sd i w
    rw [hm] at hnot
    simp [handleStorageEvent, hk, hnv, hd, hexp, hm]
    simpa using hnot
  · intro raw sd value ev1 hk hnv hd hexp hmig hval i w
    rcases hv : validate o value with ⟨vv, ev2⟩
    rw [hv] at hval
    simp only at hval
    subst hval
    have hnot1 := notify_notin_migrate o sd i w
    rw [hmig] at hnot1
    have hnot2 := notify_notin_validate o value i w
    rw [hv] at hnot2
    simp only at hnot1 hnot2
    simp [handleStorageEvent, hk, hnv, hd, hexp, hmig, hv, hnot1, hnot2]
  · intro raw sd value ev1 v2 ev2 hk hnv hd hexp hmig hval
    have heq : handleStorageEvent o cbs now ev = ev1 ++ ev2 ++ notifyCallbacks cbs (some v2) := by
      simp [handleStorageEvent, hk, hnv, hd, hexp, hmig, hval]
    exact ⟨heq, fun c hc => by simp [heq, notify_mem cbs (some v2) c hc]⟩

/-- C8 (witness): for the plain store with one subscriber — an event for a
foreign key is ignored; a cleared-key event notifies null; an event whose
record passes every stage delivers the value to the subscriber. -/
theorem cross_tab_witness :
    handleStorageEvent storeP [okCb] 0 { key := some "x", newValue := none } = [] ∧
    handleStorageEvent storeP [okCb] 0 { key := some "k", newValue := none } =
      [Ev.notify 1 none] ∧
    handleStorageEvent storeP [okCb] 0 { key := some "k", newValue := some { value := 8 } } =
      [Ev.notify 1 (some 8)] := by
  have h1 := (cross_tab storeP [okCb] 0 { key := some "x", newValue := none }).1 (by decide)
  have h2 := (cross_tab storeP [okCb] 0 { key := some "k", newValue := none }).2.1 rfl rfl
  have h7 := ((cross_tab storeP [okCb] 0
      { key := some "k", newValue := some { value := 8 } }).2.2.2.2.2.2
    { value := 8 } { value := 8 } 8 [] 8 [] rfl rfl rfl rfl rfl rfl).1
  exact ⟨h1, by simpa [notifyCallbacks, okCb] using h2,
    by simpa [notifyCallbacks, okCb] using h7⟩

/-- C8 (counterexample): the claim as stated says that when a pipeline
stage fails no value is delivered to subscribers; but a foreign-tab event
carrying an *expired* record does notify the subscriber — with null. -/
theorem cross_tab_counterexample :
    handleStorageEvent storeP [okCb] 100
        { key := some "k", newValue := some { value := 5, expiresAt := some 10 } } =
      [Ev.notify 1 none] ∧
    Ev.notify 1 (none : Option Int) ∈ handleStorageEvent storeP [okCb] 100
        { key := some "k", newValue := some { value := 5, expiresAt := some 10 } } := by
  constructor <;> decide

/-! ## C9 — subscriber exceptions are contained -/

/-- C9 (confirmed): if a subscriber callback throws when notified, the
exception is caught inside the notification loop: every subscriber
(including the throwing one) is still invoked with the same value, in
order, and the `set`/`remove` operation completes normally instead of
propagating the subscriber's exception. -/
theorem subscriber_exception_isolated (o : Opts V R) (cbs : List (Cb V)) (now : Int)
    (b : Backend R) (data vd : V) (ev1 : List (Ev V)) (raw : R) (cb : Cb V) (e e2 : String)
    (hmem : cb ∈ cbs) (hthrow : cb.run (some vd) = .error e)
    (hthrow2 : cb.run none = .error e2)
    (hval : validate o data = (some vd, ev1)) (hser : o.ser (mkRecord o now vd) = .ok raw) :
    (setInternal o cbs now b data).1 = .ok () ∧
    (∀ c ∈ cbs, Ev.notify c.id (some vd) ∈ (setInternal o cbs now b data).2.2) ∧
    (removeOp o cbs b).1 = removeK b o.key ∧
    (∀ c ∈ cbs, Ev.notify c.id none ∈ (removeOp o cbs b).2) := by
  have hset := setInternal_ok o cbs now b data vd ev1 raw hval hser
  exact ⟨by simp [hset], fun c hc => by simp [hset, notify_mem cbs (some vd) c hc],
    rfl, fun c hc => by simpa [removeOp] using notify_mem cbs none c hc⟩

/-- C9 (witness): with a first subscriber that always throws and a second
that never does, `set(5)` completes normally and both subscribers receive 5;
`remove` notifies both with null. -/
theorem subscriber_exception_isolated_witness :
    (setInternal storeP [throwingCb, okCb] 0 emptyBack 5).1 = .ok () ∧
    Ev.notify 0 (some 5) ∈ (setInternal storeP [throwingCb, okCb] 0 emptyBack 5).2.2 ∧
    Ev.notify 1 (some 5) ∈ (setInternal storeP [throwingCb, okCb] 0 emptyBack 5).2.2 ∧
    Ev.notify 0 (none : Option Int) ∈ (removeOp storeP [throwingCb, okCb] emptyBack).2 := by
  have h := subscriber_exception_isolated storeP [throwingCb, okCb] 0 emptyBack 5 5 []
    { value := 5, timestamp := some 0 } throwingCb "cb boom" "cb boom"
    (by simp) rfl rfl rfl rfl
  exact ⟨h.1, h.2.1 throwingCb (by simp), h.2.1 okCb (by simp),
    h.2.2.2 throwingCb (by simp)⟩

/-! ## C10 — a configured default makes `has` report true -/

/-- C10 (confirmed): with a default value configured and nothing stored
under the key, `get()` returns the default, and therefore `has()` returns
true even though nothing was ever written — `has` (defined as
`get() !== null`) cannot distinguish a stored value from the default. -/
theorem default_without_write (o : Opts V R) (cbs : List (Cb V)) (now : Int)
    (b : Backend R) (d : V) (hd : o.defaultValue = some d) (hb : b o.key = none) :
    get o cbs now b = (.ok (some d), b, []) ∧ (hasOp o cbs now b).1 = true := by
  have hg : get o cbs now b = (.ok (some d), b, []) := by simp [get, getTry, hb, hd]
  exact ⟨hg, by simp [hasOp, hg]⟩

/-- C10 (witness): the store with default 42 over the empty backend:
`get` returns 42 and `has` reports true. -/
theorem default_without_write_witness :
    get storeW10 [] 0 emptyBack = (.ok (some 42), emptyBack, []) ∧
    (hasOp storeW10 [] 0 emptyBack).1 = true :=
  default_without_write storeW10 [] 0 emptyBack 42 rfl rfl

end SafeStorage
